import Mathlib

/-!
Shallow embedding of the typed-expression construction layer of the TVM IR
(`src/lang/expr_operator.cc`): numeric type descriptors, expression nodes,
the binary type-promotion engine, extremum resolvers, reduction builders and
elementwise math intrinsics.  Fatal `CHECK`/`LOG(FATAL)` failures are modelled
by `Except String`; everything else is a pure function on expression trees.
-/

namespace tvm

/-- Modelled from the spec: the numeric kind of a type descriptor
(`kind ∈ Int, UInt, Float, Bool`); the `DataType` class itself lives in a
header that is not part of the given sources. -/
inductive TypeCode where
  | Int
  | UInt
  | Float
  | Bool
deriving DecidableEq, Repr

/-- Modelled from the spec: a numeric type descriptor with a kind, a bit
width and a lane count (`lanes = 1` means scalar). -/
structure DataType where
  code : TypeCode
  bits : Nat
  lanes : Nat
deriving DecidableEq, Repr

abbrev DataType.is_int (t : DataType) : Prop := t.code = TypeCode.Int

abbrev DataType.is_uint (t : DataType) : Prop := t.code = TypeCode.UInt

abbrev DataType.is_float (t : DataType) : Prop := t.code = TypeCode.Float

abbrev DataType.is_bool (t : DataType) : Prop := t.code = TypeCode.Bool

/-- `DataType::Int(bits, lanes)`. -/
def DataType.Int (bits : Nat) (lanes : Nat := 1) : DataType := ⟨TypeCode.Int, bits, lanes⟩

/-- `DataType::UInt(bits, lanes)`. -/
def DataType.UInt (bits : Nat) (lanes : Nat := 1) : DataType := ⟨TypeCode.UInt, bits, lanes⟩

/-- `DataType::Float(bits, lanes)`. -/
def DataType.Float (bits : Nat) (lanes : Nat := 1) : DataType := ⟨TypeCode.Float, bits, lanes⟩

/-- `DataType::Bool(lanes)`: boolean kind, one bit. -/
def DataType.Bool (lanes : Nat := 1) : DataType := ⟨TypeCode.Bool, 1, lanes⟩

/-- `DataType::with_lanes`. -/
def DataType.with_lanes (t : DataType) (lanes : Nat) : DataType := ⟨t.code, t.bits, lanes⟩

/-- `DataType::element_of`: the scalar element type. -/
def DataType.element_of (t : DataType) : DataType := t.with_lanes 1

/-- The value stored by a floating-point immediate (a C++ `double`):
either an exact finite value, an infinity, or NaN. -/
inductive FloatVal where
  | finite (q : ℚ)
  | posInf
  | negInf
  | nan
deriving DecidableEq, Repr

/-- Round to nearest, ties to even (the behaviour of `std::nearbyint` in the
default rounding mode). -/
def ratRoundEven (q : ℚ) : ℤ :=
  let f : ℤ := Rat.floor q
  let r : ℚ := q - (f : ℚ)
  if r < 1/2 then f
  else if 1/2 < r then f + 1
  else if f % 2 = 0 then f else f + 1

def FloatVal.neg : FloatVal → FloatVal
  | .finite q => .finite (-q)
  | .posInf => .negInf
  | .negInf => .posInf
  | .nan => .nan

/-- `std::fabs`. -/
def FloatVal.fabs : FloatVal → FloatVal
  | .finite q => .finite (if q < 0 then -q else q)
  | .posInf => .posInf
  | .negInf => .posInf
  | .nan => .nan

/-- `std::isnan`. -/
def FloatVal.isnan : FloatVal → Bool
  | .nan => true
  | _ => false

/-- `std::floor` (infinities and NaN are fixed points). -/
def FloatVal.floor : FloatVal → FloatVal
  | .finite q => .finite ((Rat.floor q : ℤ) : ℚ)
  | v => v

/-- `std::ceil`. -/
def FloatVal.ceil : FloatVal → FloatVal
  | .finite q => .finite ((Rat.ceil q : ℤ) : ℚ)
  | v => v

/-- `std::nearbyint` (round half to even). -/
def FloatVal.nearby : FloatVal → FloatVal
  | .finite q => .finite ((ratRoundEven q : ℤ) : ℚ)
  | v => v

/-- The `value < 0` test used by `trunc`. -/
def FloatVal.lt_zero : FloatVal → Bool
  | .finite q => decide (q < 0)
  | .negInf => true
  | _ => false

/-- One bound variable of a reduction's iteration domain.  The claims never
inspect it, so only its name is modelled. -/
structure IterVar where
  name : String
deriving DecidableEq, Repr

/-- The call kind tag of a `Call` node (`ir::CallNode::PureIntrinsic` etc.). -/
inductive CallKind where
  | Intrinsic
  | PureIntrinsic
deriving DecidableEq, Repr

/-- The binary arithmetic / logical node kinds built by the factory. -/
inductive BinOpKind where
  | Add | Sub | Mul | Div | Mod | FloorDiv | FloorMod | Min | Max | And | Or
deriving DecidableEq, Repr

/-- The comparison node kinds. -/
inductive CmpOpKind where
  | GT | GE | LT | LE | EQ | NE
deriving DecidableEq, Repr

/-- Expression nodes.  As in the source, every node stores its own result
type descriptor; the `*Node.make` helpers below compute it exactly as the
corresponding C++ constructors do.  The commutative reducer of a `Reduce`
node (two formal-parameter lists, combination results, identities) is stored
inline as its four lists. -/
inductive PrimExpr where
  | IntImm (dtype : DataType) (value : Int)
  | UIntImm (dtype : DataType) (value : Nat)
  | FloatImm (dtype : DataType) (value : FloatVal)
  | Var (dtype : DataType) (name : String)
  | Cast (dtype : DataType) (value : PrimExpr)
  | Broadcast (dtype : DataType) (value : PrimExpr) (lanes : Nat)
  | BinOp (op : BinOpKind) (dtype : DataType) (a : PrimExpr) (b : PrimExpr)
  | CmpOp (op : CmpOpKind) (dtype : DataType) (a : PrimExpr) (b : PrimExpr)
  | Select (dtype : DataType) (cond : PrimExpr) (true_value : PrimExpr) (false_value : PrimExpr)
  | Call (dtype : DataType) (name : String) (args : List PrimExpr) (call_kind : CallKind)
  | Reduce (dtype : DataType)
      (comb_lhs : List PrimExpr) (comb_rhs : List PrimExpr)
      (comb_result : List PrimExpr) (comb_identity : List PrimExpr)
      (source : List PrimExpr) (rdom : List IterVar)
      (condition : PrimExpr) (value_index : Nat)

/-- The stored result-type descriptor of a node (`PrimExpr::dtype()`). -/
def PrimExpr.dtype : PrimExpr → DataType
  | .IntImm t _ => t
  | .UIntImm t _ => t
  | .FloatImm t _ => t
  | .Var t _ => t
  | .Cast t _ => t
  | .Broadcast t _ _ => t
  | .BinOp _ t _ _ => t
  | .CmpOp _ t _ _ => t
  | .Select t _ _ _ => t
  | .Call t _ _ _ => t
  | .Reduce t _ _ _ _ _ _ _ _ => t

/-- `x.as<IntImmNode>() != nullptr`. -/
def PrimExpr.isIntImmB : PrimExpr → Bool
  | .IntImm _ _ => true
  | _ => false

/-- `x.as<UIntImmNode>() != nullptr`. -/
def PrimExpr.isUIntImmB : PrimExpr → Bool
  | .UIntImm _ _ => true
  | _ => false

/-- `x.as<FloatImmNode>() != nullptr`. -/
def PrimExpr.isFloatImmB : PrimExpr → Bool
  | .FloatImm _ _ => true
  | _ => false

/-- `ir::IntImmNode::make`. -/
def IntImmNode.make (t : DataType) (v : Int) : PrimExpr := .IntImm t v

/-- `ir::UIntImmNode::make`. -/
def UIntImmNode.make (t : DataType) (v : Nat) : PrimExpr := .UIntImm t v

/-- `ir::FloatImmNode::make`. -/
def FloatImmNode.make (t : DataType) (v : FloatVal) : PrimExpr := .FloatImm t v

/-- `ir::CastNode::make`: the node's type is the target type. -/
def CastNode.make (t : DataType) (v : PrimExpr) : PrimExpr := .Cast t v

/-- `ir::BroadcastNode::make`: the node's type is the base type with the
given lane count. -/
def BroadcastNode.make (v : PrimExpr) (lanes : Nat) : PrimExpr :=
  .Broadcast (v.dtype.with_lanes lanes) v lanes

/-- The shared shape of `ir::AddNode::make`, `SubNode::make`, ...: the
node's type is the (already matched) operand type. -/
def BinNode.make (op : BinOpKind) (a b : PrimExpr) : PrimExpr :=
  .BinOp op a.dtype a b

/-- The shared shape of `ir::GTNode::make`, ...: the node's type is boolean
with the operand lane count. -/
def CmpNode.make (op : CmpOpKind) (a b : PrimExpr) : PrimExpr :=
  .CmpOp op (DataType.Bool a.dtype.lanes) a b

/-- `ir::SelectNode::make`: the node's type is the true branch's type. -/
def SelectNode.make (cond tv fv : PrimExpr) : PrimExpr :=
  .Select tv.dtype cond tv fv

/-- `ir::CallNode::make`. -/
def CallNode.make (t : DataType) (name : String) (args : List PrimExpr)
    (k : CallKind) : PrimExpr :=
  .Call t name args k

/-- `ir::ReduceNode::make` (with the commutative reducer's four lists
inlined): the node's type is the type of the selected source. -/
def ReduceNode.make (comb_lhs comb_rhs comb_result comb_identity : List PrimExpr)
    (source : List PrimExpr) (rdom : List IterVar)
    (condition : PrimExpr) (value_index : Nat) : PrimExpr :=
  .Reduce ((source.getD value_index (.IntImm (DataType.Int 32) 0)).dtype)
    comb_lhs comb_rhs comb_result comb_identity source rdom condition value_index

/-- Wrap of a C++ `int64` into `uint64` (`static_cast<uint64_t>`). -/
def u64_of_int (v : Int) : Nat := (v % (2 ^ 64)).toNat

/-- Wrap of a C++ `uint64` into `int64` (`static_cast<int64_t>`). -/
def i64_of_nat (v : Nat) : Int :=
  let m : Nat := v % 2 ^ 64
  if m < 2 ^ 63 then (m : Int) else (m : Int) - 2 ^ 64

/-- Truncation of a `double` toward zero (`static_cast<int64_t>(double)`);
non-finite inputs are unspecified in C++ and mapped to 0. -/
def int_of_floatval : FloatVal → Int
  | .finite q => if q < 0 then Rat.ceil q else Rat.floor q
  | _ => 0

/-- Modelled from the spec: `MakeConstScalar(t, int64 value)` from the
`expr_operator.h` header (not part of the given sources) — a scalar literal
node of type `t` holding the converted value. -/
def MakeConstScalar_i (t : DataType) (v : Int) : PrimExpr :=
  match t.code with
  | .Int => .IntImm t v
  | .UInt => .UIntImm t (u64_of_int v)
  | .Bool => .UIntImm t (u64_of_int v)
  | .Float => .FloatImm t (.finite (v : ℚ))

/-- Modelled from the spec: `MakeConstScalar(t, uint64 value)`. -/
def MakeConstScalar_u (t : DataType) (v : Nat) : PrimExpr :=
  match t.code with
  | .Int => .IntImm t (i64_of_nat v)
  | .UInt => .UIntImm t (v % 2 ^ 64)
  | .Bool => .UIntImm t (v % 2 ^ 64)
  | .Float => .FloatImm t (.finite (v : ℚ))

/-- Modelled from the spec: `MakeConstScalar(t, double value)`. -/
def MakeConstScalar_f (t : DataType) (v : FloatVal) : PrimExpr :=
  match t.code with
  | .Int => .IntImm t (int_of_floatval v)
  | .UInt => .UIntImm t (u64_of_int (int_of_floatval v))
  | .Bool => .UIntImm t (u64_of_int (int_of_floatval v))
  | .Float => .FloatImm t v

/-- Modelled from the spec: `make_const(t, value)` for an integer value —
a scalar literal, broadcast across the lanes when `t` is a vector type. -/
def make_const_i (t : DataType) (v : Int) : PrimExpr :=
  if t.lanes = 1 then MakeConstScalar_i t v
  else BroadcastNode.make (MakeConstScalar_i t.element_of v) t.lanes

/-- Modelled from the spec: `make_const(t, value)` for an unsigned value. -/
def make_const_u (t : DataType) (v : Nat) : PrimExpr :=
  if t.lanes = 1 then MakeConstScalar_u t v
  else BroadcastNode.make (MakeConstScalar_u t.element_of v) t.lanes

/-- Modelled from the spec: `make_const(t, value)` for a floating value. -/
def make_const_f (t : DataType) (v : FloatVal) : PrimExpr :=
  if t.lanes = 1 then MakeConstScalar_f t v
  else BroadcastNode.make (MakeConstScalar_f t.element_of v) t.lanes

/-- Modelled from the spec: `make_zero(t)`. -/
def make_zero (t : DataType) : PrimExpr := make_const_i t 0

/-- `SimpleCast`: only checks whether the type already matches, else wraps
in a cast node. -/
def SimpleCast (t : DataType) (value : PrimExpr) : PrimExpr :=
  if value.dtype = t then value else CastNode.make t value

/-- `cast(t, value)`: no-op on matching type; literal re-typing for scalar
targets; scalar-to-vector casts unroll into a cast of the element followed
by a broadcast; vector-to-vector casts require matching lane counts
(fatal otherwise). -/
def cast (t : DataType) (value : PrimExpr) : Except String PrimExpr :=
  if value.dtype = t then .ok value
  else if t.lanes = 1 then
    match value with
    | .IntImm _ v => .ok (make_const_i t v)
    | .UIntImm _ v => .ok (make_const_u t v)
    | .FloatImm _ v => .ok (make_const_f t v)
    | _ => .ok (CastNode.make t value)
  else
    if value.dtype.lanes = 1 then
      if value.dtype ≠ t.element_of then
        match value with
        | .IntImm _ v => .ok (BroadcastNode.make (make_const_i t.element_of v) t.lanes)
        | .UIntImm _ v => .ok (make_const_u t v)
        | .FloatImm _ v => .ok (BroadcastNode.make (make_const_f t.element_of v) t.lanes)
        | _ => .ok (BroadcastNode.make (CastNode.make t.element_of value) t.lanes)
      else .ok (BroadcastNode.make value t.lanes)
    else
      if value.dtype.lanes = t.lanes then .ok (CastNode.make t value)
      else .error "cast: lanes mismatch"

/-- `BinaryOpMatchTypes(lhs, rhs)`: broadcast a scalar operand against a
vector operand, then reconcile the scalar kinds (int/uint to float, narrow
to wide within a kind, mixed signedness to signed of the max width);
unresolvable combinations are fatal. -/
def BinaryOpMatchTypes (lhs rhs : PrimExpr) : Except String (PrimExpr × PrimExpr) :=
  if lhs.dtype = rhs.dtype then .ok (lhs, rhs)
  else do
    let (lhs, rhs) ←
      if lhs.dtype.lanes = 1 ∧ rhs.dtype.lanes ≠ 1 then
        Except.ok (BroadcastNode.make lhs rhs.dtype.lanes, rhs)
      else if rhs.dtype.lanes = 1 ∧ lhs.dtype.lanes ≠ 1 then
        Except.ok (lhs, BroadcastNode.make rhs lhs.dtype.lanes)
      else if lhs.dtype.lanes = rhs.dtype.lanes then
        Except.ok (lhs, rhs)
      else
        Except.error "Cannot match type"
    if lhs.dtype = rhs.dtype then Except.ok (lhs, rhs)
    else if ¬ lhs.dtype.is_float ∧ rhs.dtype.is_float then do
      let lhs ← cast rhs.dtype lhs
      Except.ok (lhs, rhs)
    else if lhs.dtype.is_float ∧ ¬ rhs.dtype.is_float then do
      let rhs ← cast lhs.dtype rhs
      Except.ok (lhs, rhs)
    else if (lhs.dtype.is_int ∧ rhs.dtype.is_int) ∨
            (lhs.dtype.is_uint ∧ rhs.dtype.is_uint) then
      if lhs.dtype.bits < rhs.dtype.bits then do
        let lhs ← cast rhs.dtype lhs
        Except.ok (lhs, rhs)
      else do
        let rhs ← cast lhs.dtype rhs
        Except.ok (lhs, rhs)
    else if (lhs.dtype.is_int ∧ rhs.dtype.is_uint) ∨
            (lhs.dtype.is_uint ∧ rhs.dtype.is_int) then
      Except.ok
        (SimpleCast (DataType.Int (Nat.max lhs.dtype.bits rhs.dtype.bits) lhs.dtype.lanes) lhs,
         SimpleCast (DataType.Int (Nat.max lhs.dtype.bits rhs.dtype.bits) rhs.dtype.lanes) rhs)
    else
      Except.error "Cannot match type"

/-- Finite-rational addition and friends for the fold model; non-finite
operands make the fold decline, so they need no result here. -/
def FloatVal.isFinite : FloatVal → Bool
  | .finite _ => true
  | _ => false

/-- Modelled from the spec: `arith::TryConstFold<Op>(a, b)` from
`const_fold.h` (not part of the given sources) — succeeds only when both
operands are already literal nodes of the operator's kind, computing the
value-exact result with the operands' (already matched) type; declines
otherwise. -/
def TryConstFold (op : BinOpKind) (a b : PrimExpr) : Option PrimExpr :=
  match a, b with
  | .IntImm t va, .IntImm _ vb =>
    match op with
    | .Add => some (.IntImm t (va + vb))
    | .Sub => some (.IntImm t (va - vb))
    | .Mul => some (.IntImm t (va * vb))
    | .Div => if vb = 0 then none else some (.IntImm t (Int.tdiv va vb))
    | .Mod => if vb = 0 then none else some (.IntImm t (Int.tmod va vb))
    | .FloorDiv => if vb = 0 then none else some (.IntImm t (Int.fdiv va vb))
    | .FloorMod => if vb = 0 then none else some (.IntImm t (Int.fmod va vb))
    | .Min => some (.IntImm t (if va ≤ vb then va else vb))
    | .Max => some (.IntImm t (if va ≤ vb then vb else va))
    | _ => none
  | .UIntImm t va, .UIntImm _ vb =>
    match op with
    | .Add => some (.UIntImm t ((va + vb) % 2 ^ 64))
    | .Sub => some (.UIntImm t ((va + 2 ^ 64 - vb % 2 ^ 64) % 2 ^ 64))
    | .Mul => some (.UIntImm t ((va * vb) % 2 ^ 64))
    | .Div => if vb = 0 then none else some (.UIntImm t (va / vb))
    | .Mod => if vb = 0 then none else some (.UIntImm t (va % vb))
    | .FloorDiv => if vb = 0 then none else some (.UIntImm t (va / vb))
    | .FloorMod => if vb = 0 then none else some (.UIntImm t (va % vb))
    | .Min => some (.UIntImm t (Nat.min va vb))
    | .Max => some (.UIntImm t (Nat.max va vb))
    | .And => some (.UIntImm t (if va ≠ 0 ∧ vb ≠ 0 then 1 else 0))
    | .Or => some (.UIntImm t (if va ≠ 0 ∨ vb ≠ 0 then 1 else 0))
  | .FloatImm t (.finite va), .FloatImm _ (.finite vb) =>
    match op with
    | .Add => some (.FloatImm t (.finite (va + vb)))
    | .Sub => some (.FloatImm t (.finite (va - vb)))
    | .Mul => some (.FloatImm t (.finite (va * vb)))
    | .Div => if vb = 0 then none else some (.FloatImm t (.finite (va / vb)))
    | .Min => some (.FloatImm t (.finite (if va ≤ vb then va else vb)))
    | .Max => some (.FloatImm t (.finite (if va ≤ vb then vb else va)))
    | _ => none
  | _, _ => none

/-- Modelled from the spec: `arith::TryConstFold<Op>` for the comparison
node kinds — both operands literal yields a boolean literal. -/
def TryConstFoldCmp (op : CmpOpKind) (a b : PrimExpr) : Option PrimExpr :=
  let boolLit (v : Bool) : PrimExpr :=
    UIntImmNode.make (DataType.Bool 1) (if v then 1 else 0)
  match a, b with
  | .IntImm _ va, .IntImm _ vb =>
    match op with
    | .GT => some (boolLit (vb < va))
    | .GE => some (boolLit (vb ≤ va))
    | .LT => some (boolLit (va < vb))
    | .LE => some (boolLit (va ≤ vb))
    | .EQ => some (boolLit (va = vb))
    | .NE => some (boolLit (va ≠ vb))
  | .UIntImm _ va, .UIntImm _ vb =>
    match op with
    | .GT => some (boolLit (vb < va))
    | .GE => some (boolLit (vb ≤ va))
    | .LT => some (boolLit (va < vb))
    | .LE => some (boolLit (va ≤ vb))
    | .EQ => some (boolLit (va = vb))
    | .NE => some (boolLit (va ≠ vb))
  | .FloatImm _ (.finite va), .FloatImm _ (.finite vb) =>
    match op with
    | .GT => some (boolLit (vb < va))
    | .GE => some (boolLit (vb ≤ va))
    | .LT => some (boolLit (va < vb))
    | .LE => some (boolLit (va ≤ vb))
    | .EQ => some (boolLit (va = vb))
    | .NE => some (boolLit (va ≠ vb))
  | _, _ => none

/-- `std::numeric_limits<double>::max()`: exactly `(2^53 - 1) * 2^971`. -/
def float64_max : ℚ := (2 ^ 53 - 1) * 2 ^ 971

/-- `std::numeric_limits<float>::max()`: exactly `(2^24 - 1) * 2^104`. -/
def float32_max : ℚ := (2 ^ 24 - 1) * 2 ^ 104

/-- `max_value(dtype)`: the largest representable literal of a scalar type;
fatal for vectors and for width/kind combinations without a table entry. -/
def max_value (dtype : DataType) : Except String PrimExpr :=
  if dtype.lanes ≠ 1 then .error "max_value: lanes must be 1"
  else if dtype.is_int then
    if dtype.bits = 64 then .ok (IntImmNode.make dtype (2 ^ 63 - 1))
    else if dtype.bits < 64 then .ok (IntImmNode.make dtype (2 ^ (dtype.bits - 1) - 1))
    else .error "Cannot decide max_value for type"
  else if dtype.is_uint then
    if dtype.bits = 64 then .ok (UIntImmNode.make dtype (2 ^ 64 - 1))
    else if dtype.bits < 64 then .ok (UIntImmNode.make dtype (2 ^ dtype.bits - 1))
    else .error "Cannot decide max_value for type"
  else if dtype.is_float then
    if dtype.bits = 64 then .ok (FloatImmNode.make dtype (.finite float64_max))
    else if dtype.bits = 32 then .ok (FloatImmNode.make dtype (.finite float32_max))
    else if dtype.bits = 16 then .ok (FloatImmNode.make dtype (.finite 65504))
    else .error "Cannot decide max_value for type"
  else .error "Cannot decide max_value for type"

/-- `min_value(dtype)`: the smallest representable literal of a scalar type;
note that for every unsigned kind it is simply the literal 0 (no width
check), while the other kinds have width tables. -/
def min_value (dtype : DataType) : Except String PrimExpr :=
  if dtype.lanes ≠ 1 then .error "min_value: lanes must be 1"
  else if dtype.is_int then
    if dtype.bits = 64 then .ok (IntImmNode.make dtype (-(2 ^ 63)))
    else if dtype.bits < 64 then .ok (IntImmNode.make dtype (-(2 ^ (dtype.bits - 1))))
    else .error "Cannot decide min_value for type"
  else if dtype.is_uint then .ok (UIntImmNode.make dtype 0)
  else if dtype.is_float then
    if dtype.bits = 64 then .ok (FloatImmNode.make dtype (.finite (-float64_max)))
    else if dtype.bits = 32 then .ok (FloatImmNode.make dtype (.finite (-float32_max)))
    else if dtype.bits = 16 then .ok (FloatImmNode.make dtype (.finite (-65504)))
    else .error "Cannot decide min_value for type"
  else .error "Cannot decide min_value for type"

/-- Unary `operator-`: negate a literal directly, else build `0 - x`. -/
def neg (a : PrimExpr) : Except String PrimExpr :=
  match a with
  | .IntImm t v => .ok (IntImmNode.make t (-v))
  | .FloatImm t v => .ok (FloatImmNode.make t v.neg)
  | _ => do
    let (x, y) ← BinaryOpMatchTypes (make_zero a.dtype) a
    match TryConstFold .Sub x y with
    | some ret => .ok ret
    | none => .ok (BinNode.make .Sub x y)

/-- Binary `operator>=`. -/
def ge (a b : PrimExpr) : Except String PrimExpr := do
  let (a, b) ← BinaryOpMatchTypes a b
  match TryConstFoldCmp .GE a b with
  | some ret => .ok ret
  | none => .ok (CmpNode.make .GE a b)

/-- `div(a, b)`: promote, fold, else build a `Div` node.  Note there is no
operand-kind check here. -/
def div (a b : PrimExpr) : Except String PrimExpr := do
  let (a, b) ← BinaryOpMatchTypes a b
  match TryConstFold .Div a b with
  | some ret => .ok ret
  | none => .ok (BinNode.make .Div a b)

/-- `truncdiv(a, b)`: checks both operands are of integer kind, then
delegates to `div`. -/
def truncdiv (a b : PrimExpr) : Except String PrimExpr :=
  if ¬ (a.dtype.is_int ∨ a.dtype.is_uint) then .error "truncdiv: lhs must be integer kind"
  else if ¬ (b.dtype.is_int ∨ b.dtype.is_uint) then .error "truncdiv: rhs must be integer kind"
  else div a b

/-- `truncmod(a, b)`: promote, fold, else build a `Mod` node.  Note there is
no operand-kind check here. -/
def truncmod (a b : PrimExpr) : Except String PrimExpr := do
  let (a, b) ← BinaryOpMatchTypes a b
  match TryConstFold .Mod a b with
  | some ret => .ok ret
  | none => .ok (BinNode.make .Mod a b)

/-- `floordiv(a, b)`: checks both operands are of integer kind, promotes,
folds, else builds a `FloorDiv` node. -/
def floordiv (a b : PrimExpr) : Except String PrimExpr :=
  if ¬ (a.dtype.is_int ∨ a.dtype.is_uint) then .error "floordiv: lhs must be integer kind"
  else if ¬ (b.dtype.is_int ∨ b.dtype.is_uint) then .error "floordiv: rhs must be integer kind"
  else do
    let (a, b) ← BinaryOpMatchTypes a b
    match TryConstFold .FloorDiv a b with
    | some ret => .ok ret
    | none => .ok (BinNode.make .FloorDiv a b)

/-- `floormod(a, b)`: checks both operands are of integer kind, promotes,
folds, else builds a `FloorMod` node. -/
def floormod (a b : PrimExpr) : Except String PrimExpr :=
  if ¬ (a.dtype.is_int ∨ a.dtype.is_uint) then .error "floormod: lhs must be integer kind"
  else if ¬ (b.dtype.is_int ∨ b.dtype.is_uint) then .error "floormod: rhs must be integer kind"
  else do
    let (a, b) ← BinaryOpMatchTypes a b
    match TryConstFold .FloorMod a b with
    | some ret => .ok ret
    | none => .ok (BinNode.make .FloorMod a b)

/-- Modelled from the spec: `arith::is_pos_inf` from `const_fold.h` (not
part of the given sources) — whether the expression is a floating-point
immediate holding positive infinity. -/
def is_pos_inf (e : PrimExpr) : Bool :=
  match e with
  | .FloatImm _ .posInf => true
  | _ => false

/-- Modelled from the spec: `arith::is_neg_inf` — whether the expression is
a floating-point immediate holding negative infinity. -/
def is_neg_inf (e : PrimExpr) : Bool :=
  match e with
  | .FloatImm _ .negInf => true
  | _ => false

/-- Binary `min(a, b)` with the infinity-aware short-circuits applied before
type promotion. -/
def min (a b : PrimExpr) : Except String PrimExpr :=
  if is_pos_inf a then .ok b
  else if is_neg_inf a then .ok a
  else if is_pos_inf b then .ok a
  else if is_neg_inf b then .ok b
  else do
    let (a, b) ← BinaryOpMatchTypes a b
    match TryConstFold .Min a b with
    | some ret => .ok ret
    | none => .ok (BinNode.make .Min a b)

/-- Binary `max(a, b)` with the infinity-aware short-circuits applied before
type promotion. -/
def max (a b : PrimExpr) : Except String PrimExpr :=
  if is_pos_inf a then .ok a
  else if is_neg_inf a then .ok b
  else if is_pos_inf b then .ok b
  else if is_neg_inf b then .ok a
  else do
    let (a, b) ← BinaryOpMatchTypes a b
    match TryConstFold .Max a b with
    | some ret => .ok ret
    | none => .ok (BinNode.make .Max a b)

/-- `if_then_else(cond, true_value, false_value)`: the condition must be a
scalar boolean (fatal otherwise); the branches are type-promoted; a literal
condition selects the corresponding branch directly, otherwise a pure
intrinsic call is emitted. -/
def if_then_else (cond true_value false_value : PrimExpr) : Except String PrimExpr :=
  if cond.dtype ≠ DataType.Bool 1 then
    .error "if_then_else only accept the condition to be boolean type."
  else do
    let (true_value, false_value) ← BinaryOpMatchTypes true_value false_value
    match cond with
    | .UIntImm _ v => if v ≠ 0 then .ok true_value else .ok false_value
    | .IntImm _ v => if v ≠ 0 then .ok true_value else .ok false_value
    | _ => .ok (CallNode.make true_value.dtype "tvm_if_then_else"
                  [cond, true_value, false_value] .PureIntrinsic)

/-- `pow(x, y)`: promote, require float kind, emit the named intrinsic. -/
def pow (x y : PrimExpr) : Except String PrimExpr := do
  let (x, y) ← BinaryOpMatchTypes x y
  if ¬ x.dtype.is_float then .error "power only applies to float"
  else .ok (CallNode.make x.dtype "pow" [x, y] .PureIntrinsic)

/-- `fmod(x, y)`: promote, require float kind, emit the named intrinsic. -/
def fmod (x y : PrimExpr) : Except String PrimExpr := do
  let (x, y) ← BinaryOpMatchTypes x y
  if ¬ x.dtype.is_float then .error "fmod only applies to float"
  else .ok (CallNode.make x.dtype "fmod" [x, y] .PureIntrinsic)

/-- `abs(x)`: fold a literal; a non-literal signed-int operand becomes
`Select(x >= 0, x, -x)`; a non-literal float operand becomes the `fabs`
intrinsic; an unsigned operand is returned unchanged; other kinds fatal. -/
def abs (x : PrimExpr) : Except String PrimExpr :=
  if x.dtype.is_int then
    match x with
    | .IntImm t v => .ok (IntImmNode.make t (|v|))
    | _ => do
      let c ← ge x (make_zero x.dtype)
      let n ← neg x
      .ok (SelectNode.make c x n)
  else if x.dtype.is_float then
    match x with
    | .FloatImm t v => .ok (FloatImmNode.make t v.fabs)
    | _ => .ok (CallNode.make x.dtype "fabs" [x] .PureIntrinsic)
  else if x.dtype.is_uint then .ok x
  else .error "Data type not supported for absolute op"

/-- `isnan(x)`: integer kinds fold to the literal false; float literals fold
directly; non-literal half-precision floats are up-cast to single precision
before the intrinsic call; other kinds fatal. -/
def isnan (x : PrimExpr) : Except String PrimExpr :=
  if x.dtype.is_int ∨ x.dtype.is_uint then
    .ok (make_const_i (DataType.Bool x.dtype.lanes) 0)
  else if x.dtype.is_float then
    match x with
    | .FloatImm _ fv =>
      .ok (make_const_i (DataType.Bool x.dtype.lanes) (if fv.isnan then 1 else 0))
    | _ =>
      if x.dtype.bits = 16 then do
        let c ← cast (DataType.Float 32 x.dtype.lanes) x
        .ok (CallNode.make (DataType.Bool x.dtype.lanes) "isnan" [c] .PureIntrinsic)
      else .ok (CallNode.make (DataType.Bool x.dtype.lanes) "isnan" [x] .PureIntrinsic)
  else .error "Data type not supported for isnan op"

/-- The default-true predicate `make_const(DataType::Bool(1), true)` used by
every reduction builder. -/
def reduce_pred : PrimExpr := make_const_i (DataType.Bool 1) 1

/-- `sum(source, rdom)`: an arity-1 commutative `Add` reducer with identity
0, packaged into a `Reduce` node with value index 0. -/
def sum (source : PrimExpr) (rdom : List IterVar) : PrimExpr :=
  let x := PrimExpr.Var source.dtype "x"
  let y := PrimExpr.Var source.dtype "y"
  let result := BinNode.make .Add x y
  let identity_element := make_zero source.dtype
  ReduceNode.make [x] [y] [result] [identity_element] [source] rdom reduce_pred 0

/-- `all(source, rdom)`: requires a boolean source; arity-1 `And` reducer
with identity true. -/
def all (source : PrimExpr) (rdom : List IterVar) : Except String PrimExpr :=
  if ¬ source.dtype.is_bool then .error "all: source must be boolean"
  else
    let x := PrimExpr.Var source.dtype "x"
    let y := PrimExpr.Var source.dtype "y"
    let result := BinNode.make .And x y
    let identity_element := make_const_i source.dtype 1
    .ok (ReduceNode.make [x] [y] [result] [identity_element] [source] rdom reduce_pred 0)

/-- `any(source, rdom)`: requires a boolean source; arity-1 `Or` reducer
with identity false. -/
def any (source : PrimExpr) (rdom : List IterVar) : Except String PrimExpr :=
  if ¬ source.dtype.is_bool then .error "any: source must be boolean"
  else
    let x := PrimExpr.Var source.dtype "x"
    let y := PrimExpr.Var source.dtype "y"
    let result := BinNode.make .Or x y
    let identity_element := make_const_i source.dtype 0
    .ok (ReduceNode.make [x] [y] [result] [identity_element] [source] rdom reduce_pred 0)

/-- The reduction overload `max(source, rdom)` (named apart from the binary
`max` since Lean does not overload): arity-1 `Max` reducer with identity
`min_value(source type)`. -/
def max_reduce (source : PrimExpr) (rdom : List IterVar) : Except String PrimExpr := do
  let x := PrimExpr.Var source.dtype "x"
  let y := PrimExpr.Var source.dtype "y"
  let result := BinNode.make .Max x y
  let identity_element ← min_value source.dtype
  .ok (ReduceNode.make [x] [y] [result] [identity_element] [source] rdom reduce_pred 0)

/-- The reduction overload `min(source, rdom)`: arity-1 `Min` reducer with
identity `max_value(source type)`. -/
def min_reduce (source : PrimExpr) (rdom : List IterVar) : Except String PrimExpr := do
  let x := PrimExpr.Var source.dtype "x"
  let y := PrimExpr.Var source.dtype "y"
  let result := BinNode.make .Min x y
  let identity_element ← max_value source.dtype
  .ok (ReduceNode.make [x] [y] [result] [identity_element] [source] rdom reduce_pred 0)

/-- `prod(source, rdom)`: arity-1 `Mul` reducer with identity 1. -/
def prod (source : PrimExpr) (rdom : List IterVar) : PrimExpr :=
  let x := PrimExpr.Var source.dtype "x"
  let y := PrimExpr.Var source.dtype "y"
  let result := BinNode.make .Mul x y
  let identity_element := make_const_i source.dtype 1
  ReduceNode.make [x] [y] [result] [identity_element] [source] rdom reduce_pred 0

/-- `floor(x)`: fold a float literal, else emit the named intrinsic. -/
def floor (x : PrimExpr) : PrimExpr :=
  match x with
  | .FloatImm t fv => FloatImmNode.make t fv.floor
  | _ => CallNode.make x.dtype "floor" [x] .PureIntrinsic

/-- `ceil(x)`: fold a float literal, else emit the named intrinsic. -/
def ceil (x : PrimExpr) : PrimExpr :=
  match x with
  | .FloatImm t fv => FloatImmNode.make t fv.ceil
  | _ => CallNode.make x.dtype "ceil" [x] .PureIntrinsic

/-- `round(x)`: fold a float literal (round half to even), else emit the
named intrinsic. -/
def round (x : PrimExpr) : PrimExpr :=
  match x with
  | .FloatImm t fv => FloatImmNode.make t fv.nearby
  | _ => CallNode.make x.dtype "round" [x] .PureIntrinsic

/-- `nearbyint(x)`: fold a float literal, else emit the named intrinsic. -/
def nearbyint (x : PrimExpr) : PrimExpr :=
  match x with
  | .FloatImm t fv => FloatImmNode.make t fv.nearby
  | _ => CallNode.make x.dtype "nearbyint" [x] .PureIntrinsic

/-- `trunc(x)`: fold a float literal by branching on its sign (ceil for
negative, floor otherwise), else emit the named intrinsic. -/
def trunc (x : PrimExpr) : PrimExpr :=
  match x with
  | .FloatImm t fv =>
    FloatImmNode.make t (if fv.lt_zero then fv.ceil else fv.floor)
  | _ => CallNode.make x.dtype "trunc" [x] .PureIntrinsic

/-- Whether a builder call ended in a fatal error. -/
def isFatal {α : Type} : Except String α → Bool
  | .error _ => true
  | .ok _ => false

/-! ## Basic lemmas about the embedding -/

@[simp]
theorem dtype_SimpleCast (t : DataType) (v : PrimExpr) : (SimpleCast t v).dtype = t := by
  unfold SimpleCast
  split
  · assumption
  · rfl

@[simp]
theorem dtype_MakeConstScalar_i (t : DataType) (v : Int) :
    (MakeConstScalar_i t v).dtype = t := by
  obtain ⟨c, b, l⟩ := t
  cases c <;> rfl

@[simp]
theorem dtype_MakeConstScalar_u (t : DataType) (v : Nat) :
    (MakeConstScalar_u t v).dtype = t := by
  obtain ⟨c, b, l⟩ := t
  cases c <;> rfl

@[simp]
theorem dtype_MakeConstScalar_f (t : DataType) (v : FloatVal) :
    (MakeConstScalar_f t v).dtype = t := by
  obtain ⟨c, b, l⟩ := t
  cases c <;> rfl

@[simp]
theorem with_lanes_element_of (t : DataType) : t.element_of.with_lanes t.lanes = t := rfl

@[simp]
theorem dtype_BroadcastNode (v : PrimExpr) (n : Nat) :
    (BroadcastNode.make v n).dtype = v.dtype.with_lanes n := rfl

@[simp]
theorem dtype_CastNode (t : DataType) (v : PrimExpr) : (CastNode.make t v).dtype = t := rfl

@[simp]
theorem dtype_make_const_i (t : DataType) (v : Int) : (make_const_i t v).dtype = t := by
  unfold make_const_i
  split
  · simp
  · rw [dtype_BroadcastNode, dtype_MakeConstScalar_i, with_lanes_element_of]

@[simp]
theorem dtype_make_const_u (t : DataType) (v : Nat) : (make_const_u t v).dtype = t := by
  unfold make_const_u
  split
  · simp
  · rw [dtype_BroadcastNode, dtype_MakeConstScalar_u, with_lanes_element_of]

@[simp]
theorem dtype_make_const_f (t : DataType) (v : FloatVal) : (make_const_f t v).dtype = t := by
  unfold make_const_f
  split
  · simp
  · rw [dtype_BroadcastNode, dtype_MakeConstScalar_f, with_lanes_element_of]

@[simp]
theorem dtype_make_zero (t : DataType) : (make_zero t).dtype = t := dtype_make_const_i t 0

/-- Every successful cast produces an expression of the target type. -/
theorem dtype_of_cast_ok {t : DataType} {v y : PrimExpr} (h : cast t v = Except.ok y) :
    y.dtype = t := by
  unfold cast at h
  by_cases h1 : v.dtype = t
  · rw [if_pos h1] at h
    cases h
    exact h1
  · rw [if_neg h1] at h
    by_cases h2 : t.lanes = 1
    · rw [if_pos h2] at h
      cases v <;> cases h <;> simp
    · rw [if_neg h2] at h
      by_cases h3 : v.dtype.lanes = 1
      · rw [if_pos h3] at h
        by_cases h4 : v.dtype = t.element_of
        · rw [if_neg (not_not_intro h4)] at h
          cases h
          rw [dtype_BroadcastNode, h4, with_lanes_element_of]
        · rw [if_pos h4] at h
          cases v <;> cases h <;> simp
      · rw [if_neg h3] at h
        by_cases h5 : v.dtype.lanes = t.lanes
        · rw [if_pos h5] at h
          cases h
          rfl
        · rw [if_neg h5] at h
          cases h

@[simp]
theorem except_bind_ok {α β : Type} (a : α) (f : α → Except String β) :
    (Except.ok a >>= f : Except String β) = f a := rfl

@[simp]
theorem except_bind_error {α β : Type} (e : String) (f : α → Except String β) :
    ((Except.error e : Except String α) >>= f : Except String β) = Except.error e := rfl

/-- Type promotion is the identity on operands that already share a type. -/
theorem BinaryOpMatchTypes_refl {a b : PrimExpr} (h : a.dtype = b.dtype) :
    BinaryOpMatchTypes a b = Except.ok (a, b) := by
  unfold BinaryOpMatchTypes
  rw [if_pos h]

/-- The fold engine declines whenever the right operand is not a literal. -/
theorem TryConstFold_none_right (op : BinOpKind) (a b : PrimExpr)
    (hi : b.isIntImmB = false) (hu : b.isUIntImmB = false) (hf : b.isFloatImmB = false) :
    TryConstFold op a b = none := by
  cases a <;> cases b <;>
    simp_all [TryConstFold, PrimExpr.isIntImmB, PrimExpr.isUIntImmB, PrimExpr.isFloatImmB]

/-- The comparison fold declines whenever the left operand is not a literal. -/
theorem TryConstFoldCmp_none_left (op : CmpOpKind) (a b : PrimExpr)
    (hi : a.isIntImmB = false) (hu : a.isUIntImmB = false) (hf : a.isFloatImmB = false) :
    TryConstFoldCmp op a b = none := by
  cases a <;>
    simp_all [TryConstFoldCmp, PrimExpr.isIntImmB, PrimExpr.isUIntImmB, PrimExpr.isFloatImmB]

theorem not_is_int_of_is_uint {t : DataType} (h : t.is_uint) : ¬ t.is_int := by
  simp [DataType.is_int, DataType.is_uint, h]

theorem not_is_float_of_is_uint {t : DataType} (h : t.is_uint) : ¬ t.is_float := by
  simp [DataType.is_float, DataType.is_uint, h]

theorem not_is_int_of_is_float {t : DataType} (h : t.is_float) : ¬ t.is_int := by
  simp [DataType.is_int, DataType.is_float, h]

theorem not_intuint_of_is_float {t : DataType} (h : t.is_float) :
    ¬ (t.is_int ∨ t.is_uint) := by
  simp [DataType.is_int, DataType.is_uint, DataType.is_float, h]

/-! ## The claims -/

/-- C9: `cast(T, cast(T, x))` is structurally equal to `cast(T, x)`: casting
to a type the expression already has returns the expression unchanged, so
`cast` is idempotent. -/
theorem c9_cast_idempotent (T : DataType) (x y : PrimExpr)
    (h : cast T x = Except.ok y) : cast T y = Except.ok y := by
  have hy := dtype_of_cast_ok h
  unfold cast
  rw [if_pos hy]

/-- Witness for C9 at `T = Float32`, `x = IntImm(Int32, 5)`. -/
theorem c9_cast_idempotent_witness :
    cast (DataType.Float 32) (PrimExpr.FloatImm (DataType.Float 32) (.finite 5)) =
      Except.ok (PrimExpr.FloatImm (DataType.Float 32) (.finite 5)) :=
  c9_cast_idempotent (DataType.Float 32) (PrimExpr.IntImm (DataType.Int 32) 5) _ rfl

/-- C4 counterexample: at the unsupported unsigned width 128 the two
resolvers disagree with the claim — `max_value(UInt128)` is fatal (so the
all-ones clause fails), while `min_value(UInt128)` succeeds with 0 (so the
"both resolvers are fatal for unsupported widths" clause fails). -/
theorem c4_extremum_counterexample :
    min_value (DataType.UInt 128) =
      Except.ok (PrimExpr.UIntImm (DataType.UInt 128) 0) ∧
    max_value (DataType.UInt 128) =
      Except.error "Cannot decide max_value for type" :=
  ⟨rfl, rfl⟩

/-- C4 (amended): for signed scalar `T` of width `1 ≤ w ≤ 64`, `max_value`
is the literal `(1 <<< (w-1)) - 1` and `min_value` the literal
`-(1 <<< (w-1))` (coinciding with the platform int64 extrema at `w = 64`),
so `min_value ≤ 0 ≤ max_value` and their difference is `2^w - 1`; for
unsigned scalar `T` of width `w ≤ 64`, `max_value` is the all-ones value
and `min_value` is 0 — but `min_value` of an unsigned type is 0 at every
width, while `max_value` is fatal above width 64; both resolvers are fatal
for non-scalar types, for signed widths above 64 and for float widths
outside 16/32/64; `min_value(Float16)` is the literal `-65504.0` and
`max_value(UInt8)` the literal 255. -/
theorem c4_extremum_amended (w : Nat) (t : DataType) :
    (1 ≤ w → w ≤ 64 →
      max_value (DataType.Int w) =
        Except.ok (PrimExpr.IntImm (DataType.Int w) (2 ^ (w - 1) - 1)) ∧
      min_value (DataType.Int w) =
        Except.ok (PrimExpr.IntImm (DataType.Int w) (-(2 ^ (w - 1)))) ∧
      (-(2 ^ (w - 1)) : ℤ) ≤ 0 ∧ (0 : ℤ) ≤ 2 ^ (w - 1) - 1 ∧
      ((2 ^ (w - 1) - 1 : ℤ) - (-(2 ^ (w - 1))) = 2 ^ w - 1)) ∧
    (w ≤ 64 →
      max_value (DataType.UInt w) =
        Except.ok (PrimExpr.UIntImm (DataType.UInt w) (2 ^ w - 1))) ∧
    (min_value (DataType.UInt w) = Except.ok (PrimExpr.UIntImm (DataType.UInt w) 0)) ∧
    (64 < w →
      isFatal (max_value (DataType.Int w)) = true ∧
      isFatal (min_value (DataType.Int w)) = true ∧
      isFatal (max_value (DataType.UInt w)) = true) ∧
    (t.lanes ≠ 1 → isFatal (max_value t) = true ∧ isFatal (min_value t) = true) ∧
    (w ≠ 16 → w ≠ 32 → w ≠ 64 →
      isFatal (max_value (DataType.Float w)) = true ∧
      isFatal (min_value (DataType.Float w)) = true) ∧
    (min_value (DataType.Float 16) =
      Except.ok (PrimExpr.FloatImm (DataType.Float 16) (.finite (-65504)))) ∧
    (max_value (DataType.UInt 8) = Except.ok (PrimExpr.UIntImm (DataType.UInt 8) 255)) := by
  refine ⟨?_, ?_, ?_, ?_, ?_, ?_, rfl, rfl⟩
  · intro h1 h64
    have hpow : (0 : ℤ) < 2 ^ (w - 1) := pow_pos (by norm_num) _
    have hsum : ((2 : ℤ) ^ (w - 1) - 1) - (-(2 ^ (w - 1))) = 2 ^ w - 1 := by
      have hw : w - 1 + 1 = w := Nat.succ_pred_eq_of_pos h1
      calc ((2 : ℤ) ^ (w - 1) - 1) - (-(2 ^ (w - 1)))
          = 2 ^ (w - 1) * 2 - 1 := by ring
        _ = 2 ^ (w - 1 + 1) - 1 := by rw [pow_succ]
        _ = 2 ^ w - 1 := by rw [hw]
    refine ⟨?_, ?_, by omega, by omega, hsum⟩
    · by_cases hw : w = 64
      · subst hw
        norm_num [max_value, DataType.Int, DataType.is_int, IntImmNode.make]
      · have hlt : w < 64 := by omega
        simp [max_value, DataType.Int, DataType.is_int, hw, hlt, IntImmNode.make]
    · by_cases hw : w = 64
      · subst hw
        norm_num [min_value, DataType.Int, DataType.is_int, IntImmNode.make]
      · have hlt : w < 64 := by omega
        simp [min_value, DataType.Int, DataType.is_int, hw, hlt, IntImmNode.make]
  · intro h64
    by_cases hw : w = 64
    · subst hw
      rfl
    · have hlt : w < 64 := by omega
      simp [max_value, DataType.UInt, DataType.is_int, DataType.is_uint, hw, hlt,
        UIntImmNode.make]
  · simp [min_value, DataType.UInt, DataType.is_int, DataType.is_uint, UIntImmNode.make]
  · intro hgt
    have h1 : w ≠ 64 := by omega
    have h2 : ¬ w < 64 := by omega
    refine ⟨?_, ?_, ?_⟩ <;>
      simp [max_value, min_value, DataType.Int, DataType.UInt, DataType.is_int,
        DataType.is_uint, h1, h2, isFatal]
  · intro hl
    constructor <;> simp [max_value, min_value, hl, isFatal]
  · intro h16 h32 h64
    constructor <;>
      simp [max_value, min_value, DataType.Float, DataType.is_int, DataType.is_uint,
        DataType.is_float, h16, h32, h64, isFatal]

/-- Witness for C4 (amended) at `w = 8` and a vector type. -/
theorem c4_extremum_amended_witness :
    max_value (DataType.Int 8) = Except.ok (PrimExpr.IntImm (DataType.Int 8) 127) ∧
    min_value (DataType.Int 8) = Except.ok (PrimExpr.IntImm (DataType.Int 8) (-128)) ∧
    isFatal (max_value (DataType.Int 32 4)) = true := by
  obtain ⟨h1, _, _, _, h5, _⟩ := c4_extremum_amended 8 (DataType.Int 32 4)
  obtain ⟨ha, hb, -⟩ := h1 (by norm_num) (by norm_num)
  refine ⟨?_, ?_, (h5 (by decide)).1⟩
  · rw [ha]
    norm_num
  · rw [hb]
    norm_num

/-- C2 counterexample: `div` and `truncmod` perform no integer-kind check —
on two `Float32` variables both succeed and build a generic node instead of
raising the fatal type error the claim requires. -/
theorem c2_div_kind_counterexample :
    div (PrimExpr.Var (DataType.Float 32) "a") (PrimExpr.Var (DataType.Float 32) "b") =
      Except.ok (PrimExpr.BinOp .Div (DataType.Float 32)
        (PrimExpr.Var (DataType.Float 32) "a") (PrimExpr.Var (DataType.Float 32) "b")) ∧
    truncmod (PrimExpr.Var (DataType.Float 32) "a") (PrimExpr.Var (DataType.Float 32) "b") =
      Except.ok (PrimExpr.BinOp .Mod (DataType.Float 32)
        (PrimExpr.Var (DataType.Float 32) "a") (PrimExpr.Var (DataType.Float 32) "b")) :=
  ⟨rfl, rfl⟩

/-- C2 (amended): `truncdiv`, `floordiv` and `floormod` raise a fatal error
when either operand is not of integer kind (in particular `truncdiv` with a
`Float32` operand is a fatal type error); `div` and `truncmod` perform no
such check themselves. -/
theorem c2_intdiv_kind_amended (a b : PrimExpr)
    (h : ¬ (a.dtype.is_int ∨ a.dtype.is_uint) ∨ ¬ (b.dtype.is_int ∨ b.dtype.is_uint)) :
    isFatal (truncdiv a b) = true ∧ isFatal (floordiv a b) = true ∧
      isFatal (floormod a b) = true := by
  by_cases ha : ¬ (a.dtype.is_int ∨ a.dtype.is_uint)
  · refine ⟨?_, ?_, ?_⟩ <;> simp [truncdiv, floordiv, floormod, ha, isFatal]
  · have hb : ¬ (b.dtype.is_int ∨ b.dtype.is_uint) := h.resolve_left (by simpa using ha)
    refine ⟨?_, ?_, ?_⟩ <;> simp [truncdiv, floordiv, floormod, ha, hb, isFatal]

/-- Witness for C2 (amended): `truncdiv` on `Float32` variables is fatal. -/
theorem c2_intdiv_kind_amended_witness :
    isFatal (truncdiv (PrimExpr.Var (DataType.Float 32) "a")
      (PrimExpr.Var (DataType.Float 32) "b")) = true :=
  (c2_intdiv_kind_amended _ _ (Or.inl (by simp [DataType.Float, DataType.is_int,
    DataType.is_uint, PrimExpr.dtype]))).1

/-- C3 counterexample: the `max` reduction builder is fatal on a vector
source (its identity, `min_value` of the source type, requires a scalar),
so it does not return a `Reduce` node for every source expression. -/
theorem c3_reduce_counterexample :
    max_reduce (PrimExpr.Var (DataType.Int 32 4) "v") [⟨"i"⟩] =
      Except.error "min_value: lanes must be 1" :=
  rfl

/-- C3 (amended): every reduction builder packages two fresh scalar
variables, one combination expression and one identity literal — an arity-1
commutative reducer — together with the one-element source list, the
reduction domain, the default-true predicate and value index 0 into a
`Reduce` node; the identities are 0 for `sum`, true for `all`, false for
`any`, `min_value`/`max_value` of the source type for `max`/`min`, and 1
for `prod`; `all` and `any` are fatal on a non-boolean source, and `max`
and `min` are fatal whenever `min_value`/`max_value` is fatal on the source
type (e.g. on any vector-typed source). -/
theorem c3_reduce_builders_amended (source : PrimExpr) (rdom : List IterVar) :
    (sum source rdom = PrimExpr.Reduce source.dtype
      [PrimExpr.Var source.dtype "x"] [PrimExpr.Var source.dtype "y"]
      [PrimExpr.BinOp .Add source.dtype (PrimExpr.Var source.dtype "x")
        (PrimExpr.Var source.dtype "y")]
      [make_zero source.dtype] [source] rdom reduce_pred 0) ∧
    (prod source rdom = PrimExpr.Reduce source.dtype
      [PrimExpr.Var source.dtype "x"] [PrimExpr.Var source.dtype "y"]
      [PrimExpr.BinOp .Mul source.dtype (PrimExpr.Var source.dtype "x")
        (PrimExpr.Var source.dtype "y")]
      [make_const_i source.dtype 1] [source] rdom reduce_pred 0) ∧
    (source.dtype.is_bool →
      all source rdom = Except.ok (PrimExpr.Reduce source.dtype
        [PrimExpr.Var source.dtype "x"] [PrimExpr.Var source.dtype "y"]
        [PrimExpr.BinOp .And source.dtype (PrimExpr.Var source.dtype "x")
          (PrimExpr.Var source.dtype "y")]
        [make_const_i source.dtype 1] [source] rdom reduce_pred 0) ∧
      any source rdom = Except.ok (PrimExpr.Reduce source.dtype
        [PrimExpr.Var source.dtype "x"] [PrimExpr.Var source.dtype "y"]
        [PrimExpr.BinOp .Or source.dtype (PrimExpr.Var source.dtype "x")
          (PrimExpr.Var source.dtype "y")]
        [make_const_i source.dtype 0] [source] rdom reduce_pred 0)) ∧
    (¬ source.dtype.is_bool →
      isFatal (all source rdom) = true ∧ isFatal (any source rdom) = true) ∧
    (∀ m, min_value source.dtype = Except.ok m →
      max_reduce source rdom = Except.ok (PrimExpr.Reduce source.dtype
        [PrimExpr.Var source.dtype "x"] [PrimExpr.Var source.dtype "y"]
        [PrimExpr.BinOp .Max source.dtype (PrimExpr.Var source.dtype "x")
          (PrimExpr.Var source.dtype "y")]
        [m] [source] rdom reduce_pred 0)) ∧
    (∀ e, min_value source.dtype = Except.error e →
      max_reduce source rdom = Except.error e) ∧
    (∀ m, max_value source.dtype = Except.ok m →
      min_reduce source rdom = Except.ok (PrimExpr.Reduce source.dtype
        [PrimExpr.Var source.dtype "x"] [PrimExpr.Var source.dtype "y"]
        [PrimExpr.BinOp .Min source.dtype (PrimExpr.Var source.dtype "x")
          (PrimExpr.Var source.dtype "y")]
        [m] [source] rdom reduce_pred 0)) ∧
    (∀ e, max_value source.dtype = Except.error e →
      min_reduce source rdom = Except.error e) ∧
    reduce_pred = PrimExpr.UIntImm (DataType.Bool 1) 1 := by
  refine ⟨rfl, rfl, ?_, ?_, ?_, ?_, ?_, ?_, rfl⟩
  · intro hb
    unfold all any
    rw [if_neg (not_not_intro hb), if_neg (not_not_intro hb)]
    exact ⟨rfl, rfl⟩
  · intro hb
    unfold all any
    rw [if_pos hb, if_pos hb]
    exact ⟨rfl, rfl⟩
  · intro m hm
    unfold max_reduce
    rw [hm]
    rfl
  · intro e he
    unfold max_reduce
    rw [he]
    rfl
  · intro m hm
    unfold min_reduce
    rw [hm]
    rfl
  · intro e he
    unfold min_reduce
    rw [he]
    rfl

/-- Witness for C3 (amended) at a boolean scalar source and an `Int32`
scalar source. -/
theorem c3_reduce_builders_amended_witness :
    all (PrimExpr.Var (DataType.Bool 1) "b") [⟨"i"⟩] =
      Except.ok (PrimExpr.Reduce (DataType.Bool 1)
        [PrimExpr.Var (DataType.Bool 1) "x"] [PrimExpr.Var (DataType.Bool 1) "y"]
        [PrimExpr.BinOp .And (DataType.Bool 1) (PrimExpr.Var (DataType.Bool 1) "x")
          (PrimExpr.Var (DataType.Bool 1) "y")]
        [make_const_i (DataType.Bool 1) 1] [PrimExpr.Var (DataType.Bool 1) "b"]
        [⟨"i"⟩] reduce_pred 0) ∧
    max_reduce (PrimExpr.Var (DataType.Int 32) "s") [⟨"i"⟩] =
      Except.ok (PrimExpr.Reduce (DataType.Int 32)
        [PrimExpr.Var (DataType.Int 32) "x"] [PrimExpr.Var (DataType.Int 32) "y"]
        [PrimExpr.BinOp .Max (DataType.Int 32) (PrimExpr.Var (DataType.Int 32) "x")
          (PrimExpr.Var (DataType.Int 32) "y")]
        [PrimExpr.IntImm (DataType.Int 32) (-2147483648)] [PrimExpr.Var (DataType.Int 32) "s"]
        [⟨"i"⟩] reduce_pred 0) :=
  ⟨((c3_reduce_builders_amended (PrimExpr.Var (DataType.Bool 1) "b") [⟨"i"⟩]).2.2.1 rfl).1,
   (c3_reduce_builders_amended (PrimExpr.Var (DataType.Int 32) "s")
      [⟨"i"⟩]).2.2.2.2.1 (PrimExpr.IntImm (DataType.Int 32) (-2147483648)) rfl⟩

/-- C1: mixed signed/unsigned promotion — for operands of equal lane count
where one is of signed-integer kind and the other of unsigned-integer kind,
`BinaryOpMatchTypes` casts both operands (via `SimpleCast`) to the signed
integer type whose bit width is the maximum of the two widths, preserving
each operand's lane count, so both ends up with the same signed-integer
descriptor. -/
theorem c1_mixed_sign_promotion (a b : PrimExpr)
    (hl : a.dtype.lanes = b.dtype.lanes)
    (hk : (a.dtype.is_int ∧ b.dtype.is_uint) ∨ (a.dtype.is_uint ∧ b.dtype.is_int)) :
    BinaryOpMatchTypes a b = Except.ok
      (SimpleCast (DataType.Int (Nat.max a.dtype.bits b.dtype.bits) a.dtype.lanes) a,
       SimpleCast (DataType.Int (Nat.max a.dtype.bits b.dtype.bits) b.dtype.lanes) b) ∧
    (SimpleCast (DataType.Int (Nat.max a.dtype.bits b.dtype.bits) a.dtype.lanes) a).dtype =
      DataType.Int (Nat.max a.dtype.bits b.dtype.bits) a.dtype.lanes ∧
    (SimpleCast (DataType.Int (Nat.max a.dtype.bits b.dtype.bits) b.dtype.lanes) b).dtype =
      (SimpleCast (DataType.Int (Nat.max a.dtype.bits b.dtype.bits) a.dtype.lanes) a).dtype := by
  have hne : a.dtype ≠ b.dtype := by
    rcases hk with ⟨h1, h2⟩ | ⟨h1, h2⟩ <;> intro h <;>
      simp only [DataType.is_int, DataType.is_uint] at h1 h2 <;>
      rw [h] at h1 <;> rw [h1] at h2 <;> exact absurd h2 (by decide)
  refine ⟨?_, by simp, by simp [hl]⟩
  unfold BinaryOpMatchTypes
  rw [if_neg hne, if_neg (by omega), if_neg (by omega), if_pos hl]
  simp only [except_bind_ok]
  rw [if_neg hne]
  rcases hk with ⟨h1, h2⟩ | ⟨h1, h2⟩ <;>
    rw [if_neg (by simp [DataType.is_float, h1, h2]),
        if_neg (by simp [DataType.is_float, h1, h2]),
        if_neg (by simp [DataType.is_int, DataType.is_uint, h1, h2]),
        if_pos (by tauto)]

/-- Witness for C1 at `(Int32, UInt16)` scalars: the `Int32` operand is
already of the target type and the `UInt16` operand is wrapped in a cast
to `Int32`. -/
theorem c1_mixed_sign_promotion_witness :
    BinaryOpMatchTypes (PrimExpr.Var (DataType.Int 32) "a") (PrimExpr.Var (DataType.UInt 16) "b") =
      Except.ok (PrimExpr.Var (DataType.Int 32) "a",
        PrimExpr.Cast (DataType.Int 32) (PrimExpr.Var (DataType.UInt 16) "b")) := by
  have h := (c1_mixed_sign_promotion (PrimExpr.Var (DataType.Int 32) "a")
    (PrimExpr.Var (DataType.UInt 16) "b") rfl (Or.inl ⟨rfl, rfl⟩)).1
  rw [h]
  rfl

/-- C6: lane reconciliation — promoting a scalar operand of type `T`
against a vector operand of type `T` with `n` lanes yields two operands of
vector type `T` with `n` lanes, the originally scalar operand wrapped in
exactly one `Broadcast` node; two vector operands of different lane counts
are a fatal error. -/
theorem c6_scalar_vector_broadcast (T : DataType) (n : Nat) (a b : PrimExpr)
    (hT : T.lanes = 1) (hn : n ≠ 1) :
    (a.dtype = T → b.dtype = T.with_lanes n →
      BinaryOpMatchTypes a b = Except.ok (BroadcastNode.make a n, b) ∧
      (BroadcastNode.make a n).dtype = T.with_lanes n) ∧
    (a.dtype = T.with_lanes n → b.dtype = T →
      BinaryOpMatchTypes a b = Except.ok (a, BroadcastNode.make b n) ∧
      (BroadcastNode.make b n).dtype = T.with_lanes n) ∧
    (a.dtype.lanes ≠ 1 → b.dtype.lanes ≠ 1 → a.dtype.lanes ≠ b.dtype.lanes →
      BinaryOpMatchTypes a b = Except.error "Cannot match type") := by
  have hlw : (T.with_lanes n).lanes = n := rfl
  refine ⟨?_, ?_, ?_⟩
  · intro ha hb
    have hne : a.dtype ≠ b.dtype := by
      rw [ha, hb]
      intro h
      have hx := congrArg DataType.lanes h
      rw [hT, hlw] at hx
      exact hn hx.symm
    have ha1 : a.dtype.lanes = 1 := by rw [ha, hT]
    have hb1 : b.dtype.lanes = n := by rw [hb, hlw]
    have heq : (BroadcastNode.make a n).dtype = b.dtype := by
      rw [dtype_BroadcastNode, ha, hb]
    refine ⟨?_, by rw [dtype_BroadcastNode, ha]⟩
    unfold BinaryOpMatchTypes
    rw [if_neg hne, if_pos ⟨ha1, by omega⟩, hb1]
    simp only [except_bind_ok]
    rw [if_pos heq]
  · intro ha hb
    have hne : a.dtype ≠ b.dtype := by
      rw [ha, hb]
      intro h
      have hx := congrArg DataType.lanes h
      rw [hlw, hT] at hx
      exact hn hx
    have ha1 : a.dtype.lanes = n := by rw [ha, hlw]
    have hb1 : b.dtype.lanes = 1 := by rw [hb, hT]
    have heq : a.dtype = (BroadcastNode.make b n).dtype := by
      rw [dtype_BroadcastNode, ha, hb]
    refine ⟨?_, by rw [dtype_BroadcastNode, hb]⟩
    unfold BinaryOpMatchTypes
    rw [if_neg hne, if_neg (by omega), if_pos ⟨hb1, by omega⟩, ha1]
    simp only [except_bind_ok]
    rw [if_pos heq]
  · intro ha1 hb1 hab
    have hne : a.dtype ≠ b.dtype := fun h => hab (congrArg DataType.lanes h)
    unfold BinaryOpMatchTypes
    rw [if_neg hne, if_neg (by omega), if_neg (by omega), if_neg hab]
    rfl

/-- Witness for C6 at `T = Int32`, `n = 4` (and a lane-mismatch pair). -/
theorem c6_scalar_vector_broadcast_witness :
    BinaryOpMatchTypes (PrimExpr.Var (DataType.Int 32) "a")
        (PrimExpr.Var (DataType.Int 32 4) "b") =
      Except.ok (BroadcastNode.make (PrimExpr.Var (DataType.Int 32) "a") 4,
        PrimExpr.Var (DataType.Int 32 4) "b") ∧
    BinaryOpMatchTypes (PrimExpr.Var (DataType.Int 32 2) "a")
        (PrimExpr.Var (DataType.Int 32 4) "b") =
      Except.error "Cannot match type" :=
  ⟨((c6_scalar_vector_broadcast (DataType.Int 32) 4 (PrimExpr.Var (DataType.Int 32) "a")
      (PrimExpr.Var (DataType.Int 32 4) "b") rfl (by decide)).1 rfl rfl).1,
   (c6_scalar_vector_broadcast (DataType.Int 32) 4 (PrimExpr.Var (DataType.Int 32 2) "a")
      (PrimExpr.Var (DataType.Int 32 4) "b") rfl (by decide)).2.2
     (by decide) (by decide) (by decide)⟩

/-- C5: `if_then_else` is fatal when the condition's type is not scalar
boolean, and whenever the condition is a literal it returns exactly the
(type-promoted) selected branch — the true branch for a non-zero literal,
the false branch for a zero literal — never a conditional node. -/
theorem c5_if_then_else_literal (cond tv fv : PrimExpr) :
    (cond.dtype ≠ DataType.Bool 1 →
      if_then_else cond tv fv =
        Except.error "if_then_else only accept the condition to be boolean type.") ∧
    (cond.dtype = DataType.Bool 1 →
      ∀ tv' fv', BinaryOpMatchTypes tv fv = Except.ok (tv', fv') →
        (∀ t v, cond = PrimExpr.UIntImm t v →
          if_then_else cond tv fv = Except.ok (if v ≠ 0 then tv' else fv')) ∧
        (∀ t v, cond = PrimExpr.IntImm t v →
          if_then_else cond tv fv = Except.ok (if v ≠ 0 then tv' else fv'))) := by
  constructor
  · intro h
    unfold if_then_else
    rw [if_pos h]
  · intro h tv' fv' hm
    constructor
    · rintro t v rfl
      unfold if_then_else
      rw [if_neg (not_not_intro h), hm]
      simp only [except_bind_ok]
      show (if v ≠ 0 then Except.ok tv' else Except.ok fv') =
        Except.ok (if v ≠ 0 then tv' else fv')
      split <;> rfl
    · rintro t v rfl
      unfold if_then_else
      rw [if_neg (not_not_intro h), hm]
      simp only [except_bind_ok]
      show (if v ≠ 0 then Except.ok tv' else Except.ok fv') =
        Except.ok (if v ≠ 0 then tv' else fv')
      split <;> rfl

/-- Witness for C5: a true and a false literal condition select the
respective branch, and a non-boolean condition is fatal. -/
theorem c5_if_then_else_literal_witness :
    if_then_else (PrimExpr.UIntImm (DataType.Bool 1) 1) (PrimExpr.IntImm (DataType.Int 32) 3)
        (PrimExpr.IntImm (DataType.Int 32) 4) =
      Except.ok (PrimExpr.IntImm (DataType.Int 32) 3) ∧
    if_then_else (PrimExpr.UIntImm (DataType.Bool 1) 0) (PrimExpr.IntImm (DataType.Int 32) 3)
        (PrimExpr.IntImm (DataType.Int 32) 4) =
      Except.ok (PrimExpr.IntImm (DataType.Int 32) 4) ∧
    if_then_else (PrimExpr.Var (DataType.Int 32) "c") (PrimExpr.IntImm (DataType.Int 32) 3)
        (PrimExpr.IntImm (DataType.Int 32) 4) =
      Except.error "if_then_else only accept the condition to be boolean type." := by
  refine ⟨?_, ?_, ?_⟩
  · have h := ((c5_if_then_else_literal (PrimExpr.UIntImm (DataType.Bool 1) 1)
      (PrimExpr.IntImm (DataType.Int 32) 3) (PrimExpr.IntImm (DataType.Int 32) 4)).2
      rfl (PrimExpr.IntImm (DataType.Int 32) 3) (PrimExpr.IntImm (DataType.Int 32) 4) rfl).1
      (DataType.Bool 1) 1 rfl
    rw [h]
    norm_num
  · have h := ((c5_if_then_else_literal (PrimExpr.UIntImm (DataType.Bool 1) 0)
      (PrimExpr.IntImm (DataType.Int 32) 3) (PrimExpr.IntImm (DataType.Int 32) 4)).2
      rfl (PrimExpr.IntImm (DataType.Int 32) 3) (PrimExpr.IntImm (DataType.Int 32) 4) rfl).1
      (DataType.Bool 1) 0 rfl
    rw [h]
    norm_num
  · exact (c5_if_then_else_literal (PrimExpr.Var (DataType.Int 32) "c")
      (PrimExpr.IntImm (DataType.Int 32) 3) (PrimExpr.IntImm (DataType.Int 32) 4)).1
      (by decide)

/-- C7 counterexample: `abs` on a non-literal signed `Int32` operand
returns a `Select` node — not a named pure-intrinsic call node. -/
theorem c7_abs_select_counterexample :
    abs (PrimExpr.Var (DataType.Int 32) "v") =
      Except.ok (PrimExpr.Select (DataType.Int 32)
        (PrimExpr.CmpOp .GE (DataType.Bool 1) (PrimExpr.Var (DataType.Int 32) "v")
          (PrimExpr.IntImm (DataType.Int 32) 0))
        (PrimExpr.Var (DataType.Int 32) "v")
        (PrimExpr.BinOp .Sub (DataType.Int 32) (PrimExpr.IntImm (DataType.Int 32) 0)
          (PrimExpr.Var (DataType.Int 32) "v"))) :=
  rfl

/-- C7 (amended): on a non-literal operand, `floor`, `ceil`, `round`,
`nearbyint` and `trunc` return the named pure-intrinsic call carrying the
operand, `pow` and `fmod` return the named call carrying the two
(type-promoted) operands, and `isnan` on a float operand of width other
than 16 returns the named call carrying the operand; `abs` on an unsigned
operand returns the operand unchanged, `abs` on a non-literal float operand
returns the `fabs` call, but `abs` on a non-literal signed-integer operand
returns a `Select(x >= 0, x, 0 - x)` node rather than an intrinsic call. -/
theorem c7_intrinsics_amended (x y : PrimExpr) :
    (x.isFloatImmB = false →
      floor x = CallNode.make x.dtype "floor" [x] .PureIntrinsic ∧
      ceil x = CallNode.make x.dtype "ceil" [x] .PureIntrinsic ∧
      round x = CallNode.make x.dtype "round" [x] .PureIntrinsic ∧
      nearbyint x = CallNode.make x.dtype "nearbyint" [x] .PureIntrinsic ∧
      trunc x = CallNode.make x.dtype "trunc" [x] .PureIntrinsic) ∧
    (x.dtype.is_uint → abs x = Except.ok x) ∧
    (x.dtype.is_float → x.isFloatImmB = false →
      abs x = Except.ok (CallNode.make x.dtype "fabs" [x] .PureIntrinsic)) ∧
    (x.dtype.is_int → x.isIntImmB = false → x.isUIntImmB = false → x.isFloatImmB = false →
      abs x = Except.ok (SelectNode.make
        (CmpNode.make .GE x (make_zero x.dtype)) x
        (BinNode.make .Sub (make_zero x.dtype) x))) ∧
    (∀ x' y', BinaryOpMatchTypes x y = Except.ok (x', y') → x'.dtype.is_float →
      pow x y = Except.ok (CallNode.make x'.dtype "pow" [x', y'] .PureIntrinsic) ∧
      fmod x y = Except.ok (CallNode.make x'.dtype "fmod" [x', y'] .PureIntrinsic)) ∧
    (x.dtype.is_float → x.isFloatImmB = false → x.dtype.bits ≠ 16 →
      isnan x = Except.ok (CallNode.make (DataType.Bool x.dtype.lanes) "isnan" [x]
        .PureIntrinsic)) := by
  refine ⟨?_, ?_, ?_, ?_, ?_, ?_⟩
  · intro h
    cases x <;> first
      | (simp only [PrimExpr.isFloatImmB] at h; exact Bool.noConfusion h)
      | exact ⟨rfl, rfl, rfl, rfl, rfl⟩
  · intro h
    unfold abs
    rw [if_neg (not_is_int_of_is_uint h), if_neg (not_is_float_of_is_uint h), if_pos h]
  · intro hf hnl
    unfold abs
    rw [if_neg (not_is_int_of_is_float hf), if_pos hf]
    cases x <;> first
      | (simp only [PrimExpr.isFloatImmB] at hnl; exact Bool.noConfusion hnl)
      | rfl
  · intro hi h2 h3 h4
    have hge : ge x (make_zero x.dtype) =
        Except.ok (CmpNode.make .GE x (make_zero x.dtype)) := by
      unfold ge
      rw [BinaryOpMatchTypes_refl (dtype_make_zero x.dtype).symm]
      simp only [except_bind_ok]
      rw [TryConstFoldCmp_none_left .GE x (make_zero x.dtype) h2 h3 h4]
    have hD : (do
        let (p, q) ← BinaryOpMatchTypes (make_zero x.dtype) x
        match TryConstFold .Sub p q with
        | some ret => Except.ok ret
        | none => Except.ok (BinNode.make .Sub p q)) =
        Except.ok (BinNode.make .Sub (make_zero x.dtype) x) := by
      rw [BinaryOpMatchTypes_refl (dtype_make_zero x.dtype)]
      simp only [except_bind_ok]
      rw [TryConstFold_none_right .Sub (make_zero x.dtype) x h2 h3 h4]
    have hneg : neg x = Except.ok (BinNode.make .Sub (make_zero x.dtype) x) := by
      cases x <;> first
        | (simp only [PrimExpr.isIntImmB] at h2; exact Bool.noConfusion h2)
        | (simp only [PrimExpr.isFloatImmB] at h4; exact Bool.noConfusion h4)
        | exact hD
    have hbody : (do
        let c ← ge x (make_zero x.dtype)
        let n ← neg x
        Except.ok (SelectNode.make c x n)) =
        Except.ok (SelectNode.make (CmpNode.make .GE x (make_zero x.dtype)) x
          (BinNode.make .Sub (make_zero x.dtype) x)) := by
      rw [hge]
      simp only [except_bind_ok]
      rw [hneg]
      rfl
    unfold abs
    rw [if_pos hi]
    cases x <;> first
      | (simp only [PrimExpr.isIntImmB] at h2; exact Bool.noConfusion h2)
      | exact hbody
  · intro x' y' hm hfl
    constructor
    · unfold pow
      rw [hm]
      simp only [except_bind_ok]
      rw [if_neg (not_not_intro hfl)]
    · unfold fmod
      rw [hm]
      simp only [except_bind_ok]
      rw [if_neg (not_not_intro hfl)]
  · intro hf hnl h16
    have hbr : (if x.dtype.bits = 16 then
          (do
            let c ← cast (DataType.Float 32 x.dtype.lanes) x
            Except.ok (CallNode.make (DataType.Bool x.dtype.lanes) "isnan" [c] .PureIntrinsic))
        else Except.ok (CallNode.make (DataType.Bool x.dtype.lanes) "isnan" [x]
          .PureIntrinsic)) =
        Except.ok (CallNode.make (DataType.Bool x.dtype.lanes) "isnan" [x] .PureIntrinsic) :=
      if_neg h16
    unfold isnan
    rw [if_neg (not_intuint_of_is_float hf), if_pos hf]
    cases x <;> first
      | (simp only [PrimExpr.isFloatImmB] at hnl; exact Bool.noConfusion hnl)
      | exact hbr

/-- Witness for C7 (amended) at non-literal `Float32`, `UInt8` and `Int32`
operands. -/
theorem c7_intrinsics_amended_witness :
    floor (PrimExpr.Var (DataType.Float 32) "x") =
      PrimExpr.Call (DataType.Float 32) "floor" [PrimExpr.Var (DataType.Float 32) "x"]
        .PureIntrinsic ∧
    abs (PrimExpr.Var (DataType.UInt 8) "u") = Except.ok (PrimExpr.Var (DataType.UInt 8) "u") ∧
    pow (PrimExpr.Var (DataType.Float 32) "x") (PrimExpr.Var (DataType.Float 32) "y") =
      Except.ok (PrimExpr.Call (DataType.Float 32) "pow"
        [PrimExpr.Var (DataType.Float 32) "x", PrimExpr.Var (DataType.Float 32) "y"]
        .PureIntrinsic) ∧
    isnan (PrimExpr.Var (DataType.Float 32) "x") =
      Except.ok (PrimExpr.Call (DataType.Bool 1) "isnan"
        [PrimExpr.Var (DataType.Float 32) "x"] .PureIntrinsic) :=
  ⟨((c7_intrinsics_amended (PrimExpr.Var (DataType.Float 32) "x")
      (PrimExpr.Var (DataType.Float 32) "y")).1 rfl).1,
   (c7_intrinsics_amended (PrimExpr.Var (DataType.UInt 8) "u")
      (PrimExpr.Var (DataType.UInt 8) "u")).2.1 rfl,
   ((c7_intrinsics_amended (PrimExpr.Var (DataType.Float 32) "x")
      (PrimExpr.Var (DataType.Float 32) "y")).2.2.2.2.1
      (PrimExpr.Var (DataType.Float 32) "x") (PrimExpr.Var (DataType.Float 32) "y")
      rfl rfl).1,
   (c7_intrinsics_amended (PrimExpr.Var (DataType.Float 32) "x")
      (PrimExpr.Var (DataType.Float 32) "y")).2.2.2.2.2 rfl rfl (by decide)⟩

/-- C8: `isnan` on an operand of integer or unsigned kind returns the
literal false of boolean type with the operand's lane count; on a
non-literal half-precision (16-bit) float operand it first casts the
operand to a 32-bit float of the same lane count and emits the intrinsic
call on the cast operand. -/
theorem c8_isnan_fold_and_halfcast (x : PrimExpr) :
    (x.dtype.is_int ∨ x.dtype.is_uint →
      isnan x = Except.ok (make_const_i (DataType.Bool x.dtype.lanes) 0)) ∧
    (x.dtype.is_float → x.dtype.bits = 16 → x.isFloatImmB = false →
      ∀ c, cast (DataType.Float 32 x.dtype.lanes) x = Except.ok c →
        isnan x = Except.ok (CallNode.make (DataType.Bool x.dtype.lanes) "isnan" [c]
          .PureIntrinsic)) := by
  constructor
  · intro h
    unfold isnan
    rw [if_pos h]
  · intro hf h16 hnl c hc
    have hbr : (if x.dtype.bits = 16 then
          (do
            let c ← cast (DataType.Float 32 x.dtype.lanes) x
            Except.ok (CallNode.make (DataType.Bool x.dtype.lanes) "isnan" [c] .PureIntrinsic))
        else Except.ok (CallNode.make (DataType.Bool x.dtype.lanes) "isnan" [x]
          .PureIntrinsic)) =
        Except.ok (CallNode.make (DataType.Bool x.dtype.lanes) "isnan" [c] .PureIntrinsic) := by
      rw [if_pos h16, hc]
      rfl
    unfold isnan
    rw [if_neg (not_intuint_of_is_float hf), if_pos hf]
    cases x <;> first
      | (simp only [PrimExpr.isFloatImmB] at hnl; exact Bool.noConfusion hnl)
      | exact hbr

/-- Witness for C8 at an `Int32` operand and a non-literal `Float16`
operand. -/
theorem c8_isnan_fold_and_halfcast_witness :
    isnan (PrimExpr.Var (DataType.Int 32) "v") =
      Except.ok (PrimExpr.UIntImm (DataType.Bool 1) 0) ∧
    isnan (PrimExpr.Var (DataType.Float 16) "h") =
      Except.ok (PrimExpr.Call (DataType.Bool 1) "isnan"
        [PrimExpr.Cast (DataType.Float 32 1) (PrimExpr.Var (DataType.Float 16) "h")]
        .PureIntrinsic) := by
  constructor
  · have h := (c8_isnan_fold_and_halfcast (PrimExpr.Var (DataType.Int 32) "v")).1 (Or.inl rfl)
    rw [h]
    rfl
  · exact (c8_isnan_fold_and_halfcast (PrimExpr.Var (DataType.Float 16) "h")).2 rfl rfl rfl
      (PrimExpr.Cast (DataType.Float 32 1) (PrimExpr.Var (DataType.Float 16) "h")) rfl

/-- C10: the binary `min` and `max` short-circuit on infinity literals
before any type promotion — `min` returns the other operand for a positive
infinity and the infinite operand for a negative infinity, `max`
symmetrically; the checks are applied to the left operand first. -/
theorem c10_minmax_infinity (a b : PrimExpr) :
    (is_pos_inf a = true → min a b = Except.ok b ∧ max a b = Except.ok a) ∧
    (is_neg_inf a = true → min a b = Except.ok a ∧ max a b = Except.ok b) ∧
    (is_pos_inf a = false → is_neg_inf a = false → is_pos_inf b = true →
      min a b = Except.ok a ∧ max a b = Except.ok b) ∧
    (is_pos_inf a = false → is_neg_inf a = false → is_neg_inf b = true →
      min a b = Except.ok b ∧ max a b = Except.ok a) := by
  have hex : ∀ e : PrimExpr, is_neg_inf e = true → is_pos_inf e = false := by
    intro e he
    cases e <;> first
      | rfl
      | (rename_i t v; cases v <;> simp_all [is_pos_inf, is_neg_inf])
  refine ⟨?_, ?_, ?_, ?_⟩
  · intro h
    constructor
    · unfold min
      rw [if_pos h]
    · unfold max
      rw [if_pos h]
  · intro h
    have hp : is_pos_inf a = false := hex a h
    constructor
    · unfold min
      rw [if_neg (by simp [hp]), if_pos h]
    · unfold max
      rw [if_neg (by simp [hp]), if_pos h]
  · intro hp hn hb
    constructor
    · unfold min
      rw [if_neg (by simp [hp]), if_neg (by simp [hn]), if_pos hb]
    · unfold max
      rw [if_neg (by simp [hp]), if_neg (by simp [hn]), if_pos hb]
  · intro hp hn hb
    have hpb : is_pos_inf b = false := hex b hb
    constructor
    · unfold min
      rw [if_neg (by simp [hp]), if_neg (by simp [hn]), if_neg (by simp [hpb]), if_pos hb]
    · unfold max
      rw [if_neg (by simp [hp]), if_neg (by simp [hn]), if_neg (by simp [hpb]), if_pos hb]

/-- Witness for C10 at a positive-infinity left operand: no promotion is
applied even though the operand types differ. -/
theorem c10_minmax_infinity_witness :
    min (PrimExpr.FloatImm (DataType.Float 32) .posInf) (PrimExpr.Var (DataType.Float 64) "b") =
      Except.ok (PrimExpr.Var (DataType.Float 64) "b") ∧
    max (PrimExpr.FloatImm (DataType.Float 32) .posInf) (PrimExpr.Var (DataType.Float 64) "b") =
      Except.ok (PrimExpr.FloatImm (DataType.Float 32) .posInf) :=
  (c10_minmax_infinity (PrimExpr.FloatImm (DataType.Float 32) .posInf)
    (PrimExpr.Var (DataType.Float 64) "b")).1 rfl

end tvm
